import Mathlib

/-!
A shallow embedding of the progress-tracking core of the `anup` anime
tracker (crates `anup` and `anime`), together with theorems checking its
natural-language specification.

The embedded code comes from:
  * `src/anime/src/remote/mod.rs` — `SeriesEntry`, `Status`, `AccessToken`;
  * `src/anup/src/series/mod.rs`  — the `SeriesEntry` wrapper with its
    `needs_sync` flag, the setters, `set_status`, the sync functions, and
    the playback-driven state machine (`begin_watching`,
    `episode_completed`, `series_complete`);
  * `src/anup/src/main.rs`        — the `--sync` command loop.

Calendar dates (`chrono::NaiveDate`) are opaque: a `Date` is a `Nat` code,
and `Local::today()` is passed in explicitly as a `today` parameter.
The `RemoteService` trait is modelled as a record of response functions;
effectful calls are made explicit by returning, next to the new entry
state, the list of arguments passed to `update_list_entry`.
-/

/-- Calendar dates are opaque codes; `today` is always passed explicitly. -/
abbrev Date := Nat

/-- `anime::remote::Status` — the watch status of a series. -/
inductive Status where
  | watching
  | completed
  | onHold
  | dropped
  | planToWatch
  | rewatching
deriving DecidableEq, Repr

namespace Anime

/-- `anime::remote::SeriesTitle`. -/
structure SeriesTitle where
  romaji : String
  preferred : String
deriving DecidableEq, Repr

/-- `anime::remote::SeriesInfo` (catalog facts; `episodes = 0` means
ongoing/unknown). -/
structure SeriesInfo where
  id : Nat
  title : SeriesTitle
  episodes : Nat
  episode_length : Nat
  sequel : Option Nat
deriving DecidableEq, Repr

/-- `anime::remote::SeriesEntry` — the raw list entry as the remote knows it. -/
structure SeriesEntry where
  id : Nat
  watched_eps : Nat
  score : Option Nat
  status : Status
  times_rewatched : Nat
  start_date : Option Date
  end_date : Option Date
deriving DecidableEq, Repr

/-- `anime::remote::SeriesEntry::new` — fresh defaults for a given id. -/
def SeriesEntry.new (id : Nat) : SeriesEntry where
  id := id
  watched_eps := 0
  score := none
  status := Status.planToWatch
  times_rewatched := 0
  start_date := none
  end_date := none

end Anime

/-- The fields of the `anup` `Config` that the state machine reads. -/
structure Config where
  reset_dates_on_rewatch : Bool
deriving DecidableEq, Repr

/-- The `RemoteService` trait, as a record of response functions: `offline`
is what `is_offline()` returns, `getListEntry` and `updateListEntry` give
the outcome of the corresponding remote calls (`Except.error` is a failed
call whose error the caller propagates with `?`). -/
structure RemoteService where
  offline : Bool
  getListEntry : Nat → Except Unit (Option Anime.SeriesEntry)
  updateListEntry : Anime.SeriesEntry → Except Unit Unit

/-- `anup`'s `SeriesEntry` wrapper (src/anup/src/series/mod.rs): the raw
entry plus the local-only dirty flag. -/
structure SeriesEntry where
  entry : Anime.SeriesEntry
  needs_sync : Bool
deriving DecidableEq, Repr

/-- `impl From<anime::remote::SeriesEntry> for SeriesEntry` — an entry
built from a remote response starts clean. -/
def SeriesEntry.fromRemote (entry : Anime.SeriesEntry) : SeriesEntry where
  entry := entry
  needs_sync := false

/-- `impl From<u32> for SeriesEntry` — fresh defaults for an id. -/
def SeriesEntry.fromId (id : Nat) : SeriesEntry :=
  SeriesEntry.fromRemote (Anime.SeriesEntry.new id)

/-- Setter generated by `impl_series_entry_getters_setters!` for
`watched_eps`. -/
def SeriesEntry.set_watched_eps (s : SeriesEntry) (value : Nat) : SeriesEntry where
  entry := { s.entry with watched_eps := value }
  needs_sync := true

/-- Setter generated by `impl_series_entry_getters_setters!` for `score`. -/
def SeriesEntry.set_score (s : SeriesEntry) (value : Option Nat) : SeriesEntry where
  entry := { s.entry with score := value }
  needs_sync := true

/-- Setter generated by `impl_series_entry_getters_setters!` for
`times_rewatched`. -/
def SeriesEntry.set_times_rewatched (s : SeriesEntry) (value : Nat) : SeriesEntry where
  entry := { s.entry with times_rewatched := value }
  needs_sync := true

/-- `SeriesEntry::set_status` (src/anup/src/series/mod.rs lines 351–377):
date side effects keyed on the next status, then assign the status and
mark the entry dirty. -/
def SeriesEntry.set_status (s : SeriesEntry) (status : Status) (config : Config)
    (today : Date) : SeriesEntry :=
  let e :=
    match status with
    | Status.watching =>
        if s.entry.start_date.isNone then
          { s.entry with start_date := some today }
        else s.entry
    | Status.rewatching =>
        if s.entry.start_date.isNone
            || (s.entry.status == Status.completed && config.reset_dates_on_rewatch) then
          { s.entry with start_date := some today }
        else s.entry
    | Status.completed =>
        if s.entry.end_date.isNone
            || (s.entry.status == Status.rewatching && config.reset_dates_on_rewatch) then
          { s.entry with end_date := some today }
        else s.entry
    | Status.dropped =>
        if s.entry.end_date.isNone then
          { s.entry with end_date := some today }
        else s.entry
    | _ => s.entry
  { entry := { e with status := status }, needs_sync := true }

/-- Outcome of a push-style sync call: the entry after the call (`&mut self`
is unchanged when the call fails), whether the call returned `Ok`, and the
arguments of every `update_list_entry` invocation it made. -/
structure SyncToResult where
  entry : SeriesEntry
  ok : Bool
  updates : List Anime.SeriesEntry
deriving DecidableEq, Repr

/-- `SeriesEntry::force_sync_to_remote`: offline is an immediate success
with no remote call; online pushes the inner entry and clears the dirty
flag on success. -/
def SeriesEntry.force_sync_to_remote (s : SeriesEntry) (remote : RemoteService) :
    SyncToResult :=
  if remote.offline then
    ⟨s, true, []⟩
  else
    match remote.updateListEntry s.entry with
    | Except.ok _ => ⟨{ s with needs_sync := false }, true, [s.entry]⟩
    | Except.error _ => ⟨s, false, [s.entry]⟩

/-- `SeriesEntry::sync_to_remote`: a clean entry is an immediate success,
otherwise defer to `force_sync_to_remote`. -/
def SeriesEntry.sync_to_remote (s : SeriesEntry) (remote : RemoteService) :
    SyncToResult :=
  if !s.needs_sync then
    ⟨s, true, []⟩
  else
    s.force_sync_to_remote remote

/-- `SeriesEntry::force_sync_from_remote`: offline is a no-op; online
replaces the entry with the fetched one, or fresh defaults for the same
id when the remote returns none. The `Bool` is whether the call returned
`Ok` (on a failed fetch the error propagates and `self` is unchanged). -/
def SeriesEntry.force_sync_from_remote (s : SeriesEntry) (remote : RemoteService) :
    SeriesEntry × Bool :=
  if remote.offline then
    (s, true)
  else
    match remote.getListEntry s.entry.id with
    | Except.ok (some entry) => (SeriesEntry.fromRemote entry, true)
    | Except.ok none => (SeriesEntry.fromId s.entry.id, true)
    | Except.error _ => (s, false)

/-- `SeriesEntry::sync_from_remote`: skip when dirty (local changes win),
otherwise defer to `force_sync_from_remote`. -/
def SeriesEntry.sync_from_remote (s : SeriesEntry) (remote : RemoteService) :
    SeriesEntry × Bool :=
  if s.needs_sync then
    (s, true)
  else
    s.force_sync_from_remote remote

namespace Series

/-- The status-transition block of `Series::begin_watching`
(src/anup/src/series/mod.rs lines 152–177): the `match last_status` block
that runs after `sync_from_remote` and before `sync_to_remote`. -/
def begin_watching_step (entry : SeriesEntry) (info : Anime.SeriesInfo)
    (config : Config) (today : Date) : SeriesEntry :=
  let last_status := entry.entry.status
  match last_status with
  | Status.watching | Status.rewatching =>
      if entry.entry.watched_eps ≥ info.episodes then
        let e := entry.set_status Status.rewatching config today
        let e := e.set_watched_eps 0
        if last_status == Status.rewatching then
          e.set_times_rewatched (e.entry.times_rewatched + 1)
        else e
      else entry
  | Status.completed =>
      (entry.set_status Status.rewatching config today).set_watched_eps 0
  | Status.planToWatch | Status.onHold =>
      entry.set_status Status.watching config today
  | Status.dropped =>
      (entry.set_status Status.watching config today).set_watched_eps 0

/-- The entry mutation of `Series::series_complete`
(src/anup/src/series/mod.rs lines 226–233): bump `times_rewatched` when a
rewatch is finishing, then `set_status(Completed)` (sync and save follow
in the source). -/
def series_complete_entry (entry : SeriesEntry) (config : Config)
    (today : Date) : SeriesEntry :=
  let entry :=
    if entry.entry.status == Status.rewatching then
      entry.set_times_rewatched (entry.entry.times_rewatched + 1)
    else entry
  entry.set_status Status.completed config today

/-- The entry mutation of `Series::episode_completed`
(src/anup/src/series/mod.rs lines 183–202), with the second component
recording whether `series_complete` was invoked. -/
def episode_completed_step (entry : SeriesEntry) (info : Anime.SeriesInfo)
    (config : Config) (today : Date) : SeriesEntry × Bool :=
  let new_progress := entry.entry.watched_eps + 1
  if new_progress ≥ info.episodes then
    let entry :=
      if new_progress = info.episodes then
        entry.set_watched_eps new_progress
      else entry
    (series_complete_entry entry config today, true)
  else
    (entry.set_watched_eps new_progress, false)

end Series

/-- The per-entry loop of the `--sync` command (src/anup/src/main.rs lines
129–141) over the entries that need syncing: each entry is pushed with
`sync_to_remote` and the `?` operator propagates a failure, aborting the
loop. Returns the entries (processed ones updated, the rest as they were),
whether the whole command returned `Ok`, and every `update_list_entry`
invocation made. -/
def syncLoop (remote : RemoteService) :
    List SeriesEntry → List SeriesEntry × Bool × List Anime.SeriesEntry
  | [] => ([], true, [])
  | e :: rest =>
      let res := e.sync_to_remote remote
      if res.ok then
        let (rest', allOk, ups) := syncLoop remote rest
        (res.entry :: rest', allOk, res.updates ++ ups)
      else
        (res.entry :: rest, false, res.updates)

/-- Modelled from the spec: `SeriesEntry::entries_that_need_sync`
(src/anup/src/series/entry.rs, not present under src/) selects exactly the
stored entries whose `needs_sync` flag is set ("iterate entries where
`needs_sync`"). The `--sync` command (`fn sync` in src/anup/src/main.rs)
then runs the push loop over that selection. -/
def syncCmd (entries : List SeriesEntry) (remote : RemoteService) :
    List SeriesEntry × Bool × List Anime.SeriesEntry :=
  syncLoop remote (entries.filter (·.needs_sync))

/-! ### Base64 and UTF-8, for `AccessToken`

`AccessToken::encode` calls `base64::encode` (the `base64` crate's
standard alphabet with `=` padding) on the token bytes;
`AccessToken::decode` calls `base64::decode` and then
`String::from_utf8`.  Byte strings are `List Nat` with every element
below 256; characters of the encoded text are their ASCII codes. -/

/-- The standard base64 alphabet: sextet value (< 64) to ASCII code. -/
def b64Char (n : Nat) : Nat :=
  if n < 26 then 65 + n
  else if n < 52 then 97 + (n - 26)
  else if n < 62 then 48 + (n - 52)
  else if n = 62 then 43
  else 47

/-- Inverse alphabet lookup: ASCII code to sextet value, `none` for a
character outside the alphabet (`=` included). -/
def b64Val (c : Nat) : Option Nat :=
  if 65 ≤ c ∧ c ≤ 90 then some (c - 65)
  else if 97 ≤ c ∧ c ≤ 122 then some (c - 97 + 26)
  else if 48 ≤ c ∧ c ≤ 57 then some (c - 48 + 52)
  else if c = 43 then some 62
  else if c = 47 then some 63
  else none

/-- `base64::encode` with the standard config: bytes in groups of three
become four alphabet characters; a trailing group of one or two bytes is
padded with `=` (ASCII 61). -/
def base64Encode : List Nat → List Nat
  | [] => []
  | [a] => [b64Char (a / 4), b64Char (a % 4 * 16), 61, 61]
  | [a, b] => [b64Char (a / 4), b64Char (a % 4 * 16 + b / 16),
               b64Char (b % 16 * 4), 61]
  | a :: b :: c :: rest =>
      b64Char (a / 4) :: b64Char (a % 4 * 16 + b / 16)
        :: b64Char (b % 16 * 4 + c / 64) :: b64Char (c % 64)
        :: base64Encode rest

/-- `base64::decode` with the standard config: groups of four characters,
`=` padding only in a final group, non-canonical trailing bits rejected. -/
def base64Decode : List Nat → Option (List Nat)
  | [] => some []
  | c0 :: c1 :: c2 :: c3 :: rest =>
      match b64Val c0, b64Val c1 with
      | some v0, some v1 =>
          if c2 = 61 then
            if c3 = 61 ∧ rest = [] ∧ v1 % 16 = 0 then
              some [v0 * 4 + v1 / 16]
            else none
          else
            match b64Val c2 with
            | some v2 =>
                if c3 = 61 then
                  if rest = [] ∧ v2 % 4 = 0 then
                    some [v0 * 4 + v1 / 16, v1 % 16 * 16 + v2 / 4]
                  else none
                else
                  match b64Val c3 with
                  | some v3 =>
                      match base64Decode rest with
                      | some tail =>
                          some ((v0 * 4 + v1 / 16) :: (v1 % 16 * 16 + v2 / 4)
                                :: (v2 % 4 * 64 + v3) :: tail)
                      | none => none
                  | none => none
            | none => none
      | _, _ => none
  | _ => none

/-- Is this byte a UTF-8 continuation byte (`0x80..=0xBF`)? -/
def utf8Cont (b : Nat) : Bool :=
  128 ≤ b && b ≤ 191

/-- UTF-8 validity of a byte string, as checked by `String::from_utf8`
(`core::str::from_utf8`): 1-byte `00..7F`; 2-byte `C2..DF` + cont;
3-byte `E0 A0..BF`, `E1..EC` cont, `ED 80..9F`, `EE..EF` cont; 4-byte
`F0 90..BF`, `F1..F3` cont, `F4 80..8F`, each followed by continuation
bytes. -/
def isValidUtf8 : List Nat → Bool
  | [] => true
  | b :: rest =>
      if b ≤ 127 then
        isValidUtf8 rest
      else if 194 ≤ b && b ≤ 223 then
        match rest with
        | b1 :: rest2 => utf8Cont b1 && isValidUtf8 rest2
        | [] => false
      else if 224 ≤ b && b ≤ 239 then
        match rest with
        | b1 :: b2 :: rest3 =>
            utf8Cont b1 && utf8Cont b2
              && (if b = 224 then 160 ≤ b1
                  else if b = 237 then b1 ≤ 159
                  else true)
              && isValidUtf8 rest3
        | _ => false
      else if 240 ≤ b && b ≤ 244 then
        match rest with
        | b1 :: b2 :: b3 :: rest4 =>
            utf8Cont b1 && utf8Cont b2 && utf8Cont b3
              && (if b = 240 then 144 ≤ b1
                  else if b = 244 then b1 ≤ 143
                  else true)
              && isValidUtf8 rest4
        | _ => false
      else false

/-- `String::from_utf8` on a byte string: the same bytes when they are
valid UTF-8 (a Rust `String` is its UTF-8 bytes), `none` otherwise. -/
def stringFromUtf8 (bytes : List Nat) : Option (List Nat) :=
  if isValidUtf8 bytes then some bytes else none

/-- `anime::remote::AccessToken` — stores only the base64-encoded token. -/
structure AccessToken where
  encoded_token : List Nat
deriving DecidableEq, Repr

/-- `AccessToken::encode`. -/
def AccessToken.encode (token : List Nat) : AccessToken where
  encoded_token := base64Encode token

/-- `AccessToken::decode`: base64-decode the stored text, then decode the
bytes as UTF-8; either step failing fails the whole call. -/
def AccessToken.decode (t : AccessToken) : Option (List Nat) :=
  match base64Decode t.encoded_token with
  | some bytes => stringFromUtf8 bytes
  | none => none

/-! ### Concrete fixtures for witnesses and counterexamples -/

/-- A dirty entry currently being watched. -/
def exEntryA : SeriesEntry :=
  ⟨⟨1, 4, none, Status.watching, 0, none, none⟩, true⟩

/-- A dirty entry in the middle of a rewatch. -/
def exEntryB : SeriesEntry :=
  ⟨⟨2, 7, some 80, Status.rewatching, 1, some 3, none⟩, true⟩

/-- A clean entry. -/
def exEntryClean : SeriesEntry :=
  ⟨⟨3, 2, none, Status.watching, 0, some 1, none⟩, false⟩

/-- An online remote whose calls all succeed (the user has no entry yet). -/
def exRemoteOk : RemoteService :=
  ⟨false, fun _ => Except.ok none, fun _ => Except.ok ()⟩

/-- An online remote whose calls all fail (a network error). -/
def exRemoteErr : RemoteService :=
  ⟨false, fun _ => Except.error (), fun _ => Except.error ()⟩

/-- The offline remote. -/
def exRemoteOffline : RemoteService :=
  ⟨true, fun _ => Except.ok none, fun _ => Except.ok ()⟩

/-- Catalog facts of an ongoing series: `episodes = 0`. -/
def exInfoOngoing : Anime.SeriesInfo :=
  ⟨1, ⟨"show", "show"⟩, 0, 24, none⟩

/-- Catalog facts of a finished twelve-episode series. -/
def exInfoTwelve : Anime.SeriesInfo :=
  ⟨1, ⟨"show", "show"⟩, 12, 24, none⟩

/-- A config that keeps existing dates on a rewatch. -/
def exConfig : Config := ⟨false⟩

/-! ### Shared helper lemmas -/

/-- `set_status` only touches `status`, the dates and the dirty flag: the
other fields project through it. -/
lemma set_status_proj (s : SeriesEntry) (st : Status) (config : Config)
    (today : Date) :
    (s.set_status st config today).entry.status = st
    ∧ (s.set_status st config today).entry.watched_eps = s.entry.watched_eps
    ∧ (s.set_status st config today).entry.times_rewatched
        = s.entry.times_rewatched
    ∧ (s.set_status st config today).entry.score = s.entry.score
    ∧ (s.set_status st config today).entry.id = s.entry.id
    ∧ (s.set_status st config today).needs_sync = true := by
  cases st <;> simp only [SeriesEntry.set_status] <;>
    (first
      | (split <;> simp)
      | simp)

/-! ### Claims -/

/-- C1: `set_status(next, config)` applies exactly the specified date side
effects with `today` the local calendar date, then assigns `status = next`:
Watching sets `start_date = today` iff it was unset; Rewatching sets
`start_date = today` iff it was unset or (previous status Completed and
`reset_dates_on_rewatch`); Completed sets `end_date = today` iff it was
unset or (previous status Rewatching and `reset_dates_on_rewatch`);
Dropped sets `end_date = today` iff it was unset; OnHold and PlanToWatch
change no date; no other date field is ever modified (and the remaining
fields are untouched). -/
theorem set_status_date_effects (s : SeriesEntry) (next : Status)
    (config : Config) (today : Date) :
    ((s.set_status next config today).entry.status = next)
    ∧ ((s.set_status next config today).entry.start_date =
        match next with
        | Status.watching =>
            if s.entry.start_date.isNone then some today else s.entry.start_date
        | Status.rewatching =>
            if s.entry.start_date.isNone
                || (s.entry.status == Status.completed
                    && config.reset_dates_on_rewatch) then
              some today
            else s.entry.start_date
        | _ => s.entry.start_date)
    ∧ ((s.set_status next config today).entry.end_date =
        match next with
        | Status.completed =>
            if s.entry.end_date.isNone
                || (s.entry.status == Status.rewatching
                    && config.reset_dates_on_rewatch) then
              some today
            else s.entry.end_date
        | Status.dropped =>
            if s.entry.end_date.isNone then some today else s.entry.end_date
        | _ => s.entry.end_date)
    ∧ ((s.set_status next config today).entry.watched_eps = s.entry.watched_eps)
    ∧ ((s.set_status next config today).entry.score = s.entry.score)
    ∧ ((s.set_status next config today).entry.times_rewatched
        = s.entry.times_rewatched)
    ∧ ((s.set_status next config today).entry.id = s.entry.id) := by
  cases next <;>
    simp only [SeriesEntry.set_status] <;>
    (first
      | (split <;> simp_all)
      | simp_all)

/-- C7: every public mutator (`set_watched_eps`, `set_score`,
`set_times_rewatched`, `set_status`) leaves `needs_sync = true`, and an
entry constructed from a remote response has `needs_sync = false`. -/
theorem setters_mark_dirty (s : SeriesEntry) (n m : Nat) (sc : Option Nat)
    (st : Status) (config : Config) (today : Date) (e : Anime.SeriesEntry) :
    (s.set_watched_eps n).needs_sync = true
    ∧ (s.set_score sc).needs_sync = true
    ∧ (s.set_times_rewatched m).needs_sync = true
    ∧ (s.set_status st config today).needs_sync = true
    ∧ (SeriesEntry.fromRemote e).needs_sync = false := by
  refine ⟨rfl, rfl, rfl, ?_, rfl⟩
  simp [SeriesEntry.set_status]

/-- C8: `series_complete` increments `times_rewatched` by exactly 1 iff
the status at the time of the call is Rewatching (otherwise it is
unchanged), and then sets the status to Completed via `set_status`. -/
theorem series_complete_spec (s : SeriesEntry) (config : Config)
    (today : Date) :
    ((Series.series_complete_entry s config today).entry.times_rewatched =
      if s.entry.status = Status.rewatching then s.entry.times_rewatched + 1
      else s.entry.times_rewatched)
    ∧ (Series.series_complete_entry s config today).entry.status
        = Status.completed
    ∧ Series.series_complete_entry s config today =
        (if s.entry.status = Status.rewatching then
          s.set_times_rewatched (s.entry.times_rewatched + 1)
         else s).set_status Status.completed config today := by
  have hmain : Series.series_complete_entry s config today =
      (if s.entry.status = Status.rewatching then
        s.set_times_rewatched (s.entry.times_rewatched + 1)
       else s).set_status Status.completed config today := by
    unfold Series.series_complete_entry
    by_cases h : s.entry.status = Status.rewatching <;> simp [h]
  refine ⟨?_, ?_, hmain⟩
  · rw [hmain]
    by_cases h : s.entry.status = Status.rewatching
    · rw [if_pos h, if_pos h,
        (set_status_proj (s.set_times_rewatched (s.entry.times_rewatched + 1))
          Status.completed config today).2.2.1]
      rfl
    · rw [if_neg h, if_neg h,
        (set_status_proj s Status.completed config today).2.2.1]
  · rw [hmain]
    exact (set_status_proj _ Status.completed config today).1

/-- C10: pushing a clean entry (`needs_sync = false`) with
`sync_to_remote` succeeds immediately, performs no `update_list_entry`
call, and leaves the entry entirely unchanged. -/
theorem sync_to_remote_clean (s : SeriesEntry) (r : RemoteService)
    (h : s.needs_sync = false) :
    s.sync_to_remote r = ⟨s, true, []⟩ := by
  simp [SeriesEntry.sync_to_remote, h]

/-- Witness for C10 at a concrete clean entry and the failing remote. -/
theorem sync_to_remote_clean_witness :
    exEntryClean.needs_sync = false
    ∧ exEntryClean.sync_to_remote exRemoteErr = ⟨exEntryClean, true, []⟩ :=
  ⟨rfl, sync_to_remote_clean exEntryClean exRemoteErr rfl⟩

/-- C2, counterexample to the claim as stated: an entry that is Watching
with 5 watched episodes of an ongoing series (`info.episodes = 0`) is not
left unchanged by `begin_watching` — the rewatch reset fires, setting the
status to Rewatching and the watched count to 0, because the code guards
the reset only by `watched_episodes >= info.episodes`, with no
`info.episodes > 0` condition. -/
theorem begin_watching_ongoing_cex :
    (Series.begin_watching_step ⟨⟨1, 5, none, Status.watching, 0, none, none⟩, false⟩
        exInfoOngoing exConfig 7).entry.status = Status.rewatching
    ∧ (Series.begin_watching_step ⟨⟨1, 5, none, Status.watching, 0, none, none⟩, false⟩
        exInfoOngoing exConfig 7).entry.watched_eps = 0 := by
  constructor <;> rfl

/-- C2 as amended: in `begin_watching`, for an entry whose current status
is Watching or Rewatching, the rewatch reset (status := Rewatching,
`watched_episodes := 0`, `times_rewatched` incremented when the previous
status was Rewatching) is performed exactly when
`watched_episodes ≥ info.episodes` — with no `info.episodes > 0` guard, so
for an ongoing series (`info.episodes = 0`) the reset always fires. -/
theorem begin_watching_rewatch_reset (entry : SeriesEntry)
    (info : Anime.SeriesInfo) (config : Config) (today : Date)
    (h : entry.entry.status = Status.watching
        ∨ entry.entry.status = Status.rewatching) :
    (entry.entry.watched_eps ≥ info.episodes →
      (Series.begin_watching_step entry info config today).entry.status
          = Status.rewatching
      ∧ (Series.begin_watching_step entry info config today).entry.watched_eps = 0
      ∧ (Series.begin_watching_step entry info config today).entry.times_rewatched
          = entry.entry.times_rewatched
              + (if entry.entry.status = Status.rewatching then 1 else 0))
    ∧ (entry.entry.watched_eps < info.episodes →
        Series.begin_watching_step entry info config today = entry) := by
  have hW : ((entry.set_status Status.rewatching config today).set_watched_eps
      0).entry.times_rewatched = entry.entry.times_rewatched :=
    (set_status_proj entry Status.rewatching config today).2.2.1
  rcases h with h | h
  · refine ⟨fun hw => ?_, fun hw => ?_⟩
    · have hred : Series.begin_watching_step entry info config today
          = (entry.set_status Status.rewatching config today).set_watched_eps 0 := by
        simp only [Series.begin_watching_step, h, ge_iff_le, if_pos hw]
        rw [if_neg (by decide)]
      rw [hred]
      exact ⟨rfl, rfl, by simp [hW, h]⟩
    · simp only [Series.begin_watching_step, h, ge_iff_le]
      rw [if_neg (by omega)]
  · refine ⟨fun hw => ?_, fun hw => ?_⟩
    · have hred : Series.begin_watching_step entry info config today
          = ((entry.set_status Status.rewatching config today).set_watched_eps
              0).set_times_rewatched
            (((entry.set_status Status.rewatching config today).set_watched_eps
              0).entry.times_rewatched + 1) := by
        simp only [Series.begin_watching_step, h, ge_iff_le, if_pos hw]
        rw [if_pos (by decide)]
      rw [hred]
      exact ⟨rfl, rfl, by simp [SeriesEntry.set_times_rewatched, hW, h]⟩
    · simp only [Series.begin_watching_step, h, ge_iff_le]
      rw [if_neg (by omega)]

/-- Witness for C2 as amended: a mid-rewatch entry of an ongoing series
(`episodes = 0`) satisfies the hypotheses, and the reset fires. -/
theorem begin_watching_rewatch_reset_witness :
    exEntryB.entry.status = Status.rewatching
    ∧ exEntryB.entry.watched_eps ≥ exInfoOngoing.episodes
    ∧ (Series.begin_watching_step exEntryB exInfoOngoing exConfig 9).entry.status
        = Status.rewatching
    ∧ (Series.begin_watching_step exEntryB exInfoOngoing exConfig 9).entry.watched_eps
        = 0 :=
  ⟨rfl, by decide,
    ((begin_watching_rewatch_reset exEntryB exInfoOngoing exConfig 9
      (Or.inr rfl)).1 (by decide)).1,
    ((begin_watching_rewatch_reset exEntryB exInfoOngoing exConfig 9
      (Or.inr rfl)).1 (by decide)).2.1⟩

/-- C3, counterexample to the claim as stated: completing an episode of an
ongoing series (`info.episodes = 0`) does invoke `series_complete` (the
guard `new_progress >= info.episodes` is `1 >= 0`), and the watched count
is not bumped to `watched_episodes + 1` — it is left at 0 while the
status becomes Completed. -/
theorem episode_completed_ongoing_cex :
    (Series.episode_completed_step ⟨⟨1, 0, none, Status.watching, 0, none, none⟩, false⟩
        exInfoOngoing exConfig 7).2 = true
    ∧ (Series.episode_completed_step ⟨⟨1, 0, none, Status.watching, 0, none, none⟩, false⟩
        exInfoOngoing exConfig 7).1.entry.watched_eps = 0
    ∧ (Series.episode_completed_step ⟨⟨1, 0, none, Status.watching, 0, none, none⟩, false⟩
        exInfoOngoing exConfig 7).1.entry.status = Status.completed := by
  refine ⟨rfl, ?_, ?_⟩ <;> decide

/-- C3 as amended: for every entry of a series with `info.episodes = 0`
(ongoing/unknown), `episode_completed` leaves `watched_episodes` unchanged
and always calls `series_complete` (which sets the status to Completed);
the `new < info.episodes` path that bumps the watched count is never
taken. -/
theorem episode_completed_ongoing (entry : SeriesEntry)
    (info : Anime.SeriesInfo) (config : Config) (today : Date)
    (h : info.episodes = 0) :
    Series.episode_completed_step entry info config today
      = (Series.series_complete_entry entry config today, true)
    ∧ (Series.episode_completed_step entry info config today).1.entry.watched_eps
        = entry.entry.watched_eps := by
  have hne : ¬ entry.entry.watched_eps + 1 = info.episodes := by omega
  have hge : entry.entry.watched_eps + 1 ≥ info.episodes := by omega
  have hred : Series.episode_completed_step entry info config today
      = (Series.series_complete_entry entry config today, true) := by
    simp only [Series.episode_completed_step, ge_iff_le, if_pos hge, if_neg hne]
  refine ⟨hred, ?_⟩
  rw [hred]
  show (Series.series_complete_entry entry config today).entry.watched_eps
      = entry.entry.watched_eps
  unfold Series.series_complete_entry
  by_cases hs : entry.entry.status = Status.rewatching
  · rw [if_pos (by simp [hs])]
    exact (set_status_proj _ Status.completed config today).2.1
  · rw [if_neg (by simp [hs])]
    exact (set_status_proj entry Status.completed config today).2.1

/-- Witness for C3 as amended at a concrete mid-series entry of an
ongoing series. -/
theorem episode_completed_ongoing_witness :
    exInfoOngoing.episodes = 0
    ∧ Series.episode_completed_step exEntryB exInfoOngoing exConfig 9
        = (Series.series_complete_entry exEntryB exConfig 9, true) :=
  ⟨rfl, (episode_completed_ongoing exEntryB exInfoOngoing exConfig 9 rfl).1⟩

/-- C5: `force_sync_to_remote` — offline, the push succeeds immediately,
performs no `update_list_entry` call and leaves the entry unchanged (so a
dirty flag stays set); online, it calls `update_list_entry` exactly once
with the inner entry, and on success clears `needs_sync` (touching
nothing else) while on failure the error propagates and the entry is
entirely unchanged. -/
theorem force_sync_to_remote_spec (s : SeriesEntry) (r : RemoteService) :
    (r.offline = true → s.force_sync_to_remote r = ⟨s, true, []⟩)
    ∧ (r.offline = false → r.updateListEntry s.entry = Except.ok () →
        s.force_sync_to_remote r
          = ⟨{ s with needs_sync := false }, true, [s.entry]⟩)
    ∧ (r.offline = false → r.updateListEntry s.entry = Except.error () →
        s.force_sync_to_remote r = ⟨s, false, [s.entry]⟩) := by
  refine ⟨fun hoff => ?_, fun hon hok => ?_, fun hon herr => ?_⟩ <;>
    simp [SeriesEntry.force_sync_to_remote, *]

/-- Witness for C5: offline and online-success at concrete inputs. -/
theorem force_sync_to_remote_spec_witness :
    exRemoteOffline.offline = true
    ∧ exEntryA.force_sync_to_remote exRemoteOffline = ⟨exEntryA, true, []⟩
    ∧ exRemoteOk.offline = false
    ∧ exRemoteOk.updateListEntry exEntryA.entry = Except.ok ()
    ∧ exEntryA.force_sync_to_remote exRemoteOk
        = ⟨{ exEntryA with needs_sync := false }, true, [exEntryA.entry]⟩ :=
  ⟨rfl, (force_sync_to_remote_spec exEntryA exRemoteOffline).1 rfl, rfl, rfl,
    (force_sync_to_remote_spec exEntryA exRemoteOk).2.1 rfl rfl⟩

/-- C6: `sync_from_remote` leaves the entry completely unchanged when
`needs_sync` is set (local changes win) or when the remote is offline;
otherwise it replaces the entry with the fetched one (marked clean,
`needs_sync = false`), or resets it to fresh defaults for the same id
when the remote returns none. -/
theorem sync_from_remote_spec (s : SeriesEntry) (r : RemoteService)
    (e : Anime.SeriesEntry) :
    (s.needs_sync = true → s.sync_from_remote r = (s, true))
    ∧ (s.needs_sync = false → r.offline = true →
        s.sync_from_remote r = (s, true))
    ∧ (s.needs_sync = false → r.offline = false →
        r.getListEntry s.entry.id = Except.ok (some e) →
        s.sync_from_remote r = (⟨e, false⟩, true))
    ∧ (s.needs_sync = false → r.offline = false →
        r.getListEntry s.entry.id = Except.ok none →
        s.sync_from_remote r
          = (⟨Anime.SeriesEntry.new s.entry.id, false⟩, true)) := by
  refine ⟨fun hd => ?_, fun hc hoff => ?_, fun hc hon hfetch => ?_,
      fun hc hon hnone => ?_⟩ <;>
    simp [SeriesEntry.sync_from_remote, SeriesEntry.force_sync_from_remote,
      SeriesEntry.fromRemote, SeriesEntry.fromId, *]

/-- Witness for C6: a clean entry against an online remote that reports
no list entry is reset to fresh defaults. -/
theorem sync_from_remote_spec_witness :
    exEntryClean.needs_sync = false
    ∧ exRemoteOk.offline = false
    ∧ exRemoteOk.getListEntry exEntryClean.entry.id = Except.ok none
    ∧ exEntryClean.sync_from_remote exRemoteOk
        = (⟨Anime.SeriesEntry.new exEntryClean.entry.id, false⟩, true) :=
  ⟨rfl, rfl, rfl,
    (sync_from_remote_spec exEntryClean exRemoteOk
      exEntryClean.entry).2.2.2 rfl rfl rfl⟩

/-- When the remote is online and every `update_list_entry` call succeeds,
the push loop succeeds and pushes exactly the dirty entries, in order. -/
lemma syncLoop_all_ok (r : RemoteService) (hon : r.offline = false)
    (hok : ∀ a, r.updateListEntry a = Except.ok ()) :
    ∀ l : List SeriesEntry,
      (syncLoop r l).2.1 = true
      ∧ (syncLoop r l).2.2 = (l.filter (·.needs_sync)).map (·.entry)
  | [] => ⟨rfl, rfl⟩
  | e :: rest => by
    have ih := syncLoop_all_ok r hon hok rest
    by_cases hd : e.needs_sync
    · have hres : e.sync_to_remote r
          = ⟨{ e with needs_sync := false }, true, [e.entry]⟩ := by
        simp [SeriesEntry.sync_to_remote, SeriesEntry.force_sync_to_remote,
          hd, hon, hok]
      simp [syncLoop, hres, ih.1, ih.2, hd]
    · have hres : e.sync_to_remote r = ⟨e, true, []⟩ := by
        simp [SeriesEntry.sync_to_remote, hd]
      simp [syncLoop, hres, ih.1, ih.2, hd]

/-- C4, counterexample to the claim as stated: with two dirty entries and
an online remote whose pushes fail, the `--sync` command pushes the first
entry, hits the error, and aborts — the second dirty entry is never
pushed, contradicting "continues with the remaining dirty entries". -/
theorem sync_cmd_aborts_cex :
    (syncCmd [exEntryA, exEntryB] exRemoteErr).2.1 = false
    ∧ (syncCmd [exEntryA, exEntryB] exRemoteErr).2.2 = [exEntryA.entry]
    ∧ (syncCmd [exEntryA, exEntryB] exRemoteErr).1 = [exEntryA, exEntryB] := by
  refine ⟨rfl, rfl, rfl⟩

/-- C4 as amended: the `--sync` command iterates exactly over the entries
whose `needs_sync` flag is set, pushing each in order; when every push
succeeds the whole batch is pushed, but when pushing one entry fails its
`needs_sync` flag stays set and the error propagates through `?`,
aborting the batch — the remaining dirty entries are not pushed in that
invocation. -/
theorem sync_cmd_spec (entries : List SeriesEntry) (r : RemoteService)
    (e : SeriesEntry) (rest : List SeriesEntry) (hon : r.offline = false) :
    ((∀ a, r.updateListEntry a = Except.ok ()) →
      (syncCmd entries r).2.1 = true
      ∧ (syncCmd entries r).2.2 = (entries.filter (·.needs_sync)).map (·.entry))
    ∧ (e.needs_sync = true → r.updateListEntry e.entry = Except.error () →
        syncLoop r (e :: rest) = (e :: rest, false, [e.entry])) := by
  constructor
  · intro hok
    have h := syncLoop_all_ok r hon hok (entries.filter (·.needs_sync))
    refine ⟨h.1, ?_⟩
    rw [show syncCmd entries r = syncLoop r (entries.filter (·.needs_sync)) from rfl,
      h.2, List.filter_filter]
    simp
  · intro hd herr
    have hres : e.sync_to_remote r = ⟨e, false, [e.entry]⟩ := by
      simp [SeriesEntry.sync_to_remote, SeriesEntry.force_sync_to_remote,
        hd, hon, herr]
    simp [syncLoop, hres]

/-- Witness for C4 as amended: one dirty and one clean entry against an
always-succeeding online remote — exactly the dirty entry is pushed; and
a failing push of a dirty entry aborts with the entry unchanged. -/
theorem sync_cmd_spec_witness :
    exRemoteOk.offline = false
    ∧ (syncCmd [exEntryA, exEntryClean] exRemoteOk).2.1 = true
    ∧ (syncCmd [exEntryA, exEntryClean] exRemoteOk).2.2
        = ([exEntryA, exEntryClean].filter (·.needs_sync)).map (·.entry)
    ∧ (exEntryB.needs_sync = true
        ∧ exRemoteErr.updateListEntry exEntryB.entry = Except.error ()
        ∧ syncLoop exRemoteErr [exEntryB] = ([exEntryB], false, [exEntryB.entry])) :=
  ⟨rfl,
    ((sync_cmd_spec [exEntryA, exEntryClean] exRemoteOk exEntryB [] rfl).1
      (fun _ => rfl)).1,
    ((sync_cmd_spec [exEntryA, exEntryClean] exRemoteOk exEntryB [] rfl).1
      (fun _ => rfl)).2,
    ⟨rfl, rfl,
      (sync_cmd_spec [exEntryA, exEntryClean] exRemoteErr exEntryB [] rfl).2
        rfl rfl⟩⟩

/-- The alphabet lookup inverts the alphabet on sextet values. -/
lemma b64Val_b64Char (n : Nat) (h : n < 64) : b64Val (b64Char n) = some n := by
  have key : ∀ m : Fin 64, b64Val (b64Char m.val) = some m.val := by decide
  exact key ⟨n, h⟩

/-- No alphabet character is the padding character `=` (ASCII 61). -/
lemma b64Char_ne_pad (n : Nat) (h : n < 64) : ¬ b64Char n = 61 := by
  have key : ∀ m : Fin 64, ¬ b64Char m.val = 61 := by decide
  exact key ⟨n, h⟩

/-- Base64 round trip: decoding an encoding recovers any byte string. -/
lemma base64_roundtrip : ∀ l : List Nat, (∀ b ∈ l, b < 256) →
    base64Decode (base64Encode l) = some l
  | [], _ => rfl
  | [a], h => by
    have ha : a < 256 := h a (by simp)
    have h0 : a / 4 < 64 := by omega
    have h1 : a % 4 * 16 < 64 := by omega
    have hmod : a % 4 * 16 % 16 = 0 := by omega
    have hx : a / 4 * 4 + a % 4 * 16 / 16 = a := by omega
    simp only [base64Encode, base64Decode, b64Val_b64Char _ h0,
      b64Val_b64Char _ h1]
    simp [hmod]
    omega
  | [a, b], h => by
    have ha : a < 256 := h a (by simp)
    have hb : b < 256 := h b (by simp)
    have h0 : a / 4 < 64 := by omega
    have h1 : a % 4 * 16 + b / 16 < 64 := by omega
    have h2 : b % 16 * 4 < 64 := by omega
    have hmod : b % 16 * 4 % 4 = 0 := by omega
    have hx : a / 4 * 4 + (a % 4 * 16 + b / 16) / 16 = a := by omega
    have hy : (a % 4 * 16 + b / 16) % 16 * 16 + b % 16 * 4 / 4 = b := by omega
    simp only [base64Encode, base64Decode, b64Val_b64Char _ h0,
      b64Val_b64Char _ h1]
    rw [if_neg (b64Char_ne_pad _ h2)]
    simp only [b64Val_b64Char _ h2]
    simp [hmod]
    omega
  | a :: b :: c :: rest, h => by
    have ha : a < 256 := h a (by simp)
    have hb : b < 256 := h b (by simp)
    have hc : c < 256 := h c (by simp)
    have h0 : a / 4 < 64 := by omega
    have h1 : a % 4 * 16 + b / 16 < 64 := by omega
    have h2 : b % 16 * 4 + c / 64 < 64 := by omega
    have h3 : c % 64 < 64 := by omega
    have hx : a / 4 * 4 + (a % 4 * 16 + b / 16) / 16 = a := by omega
    have hy : (a % 4 * 16 + b / 16) % 16 * 16 + (b % 16 * 4 + c / 64) / 4
        = b := by omega
    have hz : (b % 16 * 4 + c / 64) % 4 * 64 + c % 64 = c := by omega
    have ih := base64_roundtrip rest
      (fun x hx => h x (by simp at hx ⊢; tauto))
    simp only [base64Encode, base64Decode, b64Val_b64Char _ h0,
      b64Val_b64Char _ h1]
    rw [if_neg (b64Char_ne_pad _ h2)]
    simp only [b64Val_b64Char _ h2]
    rw [if_neg (b64Char_ne_pad _ h3)]
    simp only [b64Val_b64Char _ h3]
    rw [ih]
    simp
    omega

/-- C9, counterexample to the claim as stated: the byte string `[255]` is
not valid UTF-8, so although the base64 layer round-trips it,
`AccessToken::decode` (which finishes with `String::from_utf8`) fails on
`AccessToken::encode([255])` instead of returning `[255]`. -/
theorem access_token_roundtrip_cex :
    (AccessToken.encode [255]).decode = none
    ∧ ¬ (AccessToken.encode [255]).decode = some [255] := by
  refine ⟨?_, ?_⟩ <;> decide

/-- C9 as amended: for every byte string that is valid UTF-8 (the only
byte strings `String::from_utf8` accepts, and every token actually
handled is UTF-8 text), `AccessToken::encode(x).decode()` succeeds and
returns `x`. -/
theorem access_token_roundtrip (x : List Nat) (hbytes : ∀ b ∈ x, b < 256)
    (hutf : isValidUtf8 x = true) :
    (AccessToken.encode x).decode = some x := by
  unfold AccessToken.decode AccessToken.encode
  rw [base64_roundtrip x hbytes]
  simp [stringFromUtf8, hutf]

/-- Witness for C9 as amended at the byte string of `"test"`. -/
theorem access_token_roundtrip_witness :
    (∀ b ∈ [116, 101, 115, 116], b < 256)
    ∧ isValidUtf8 [116, 101, 115, 116] = true
    ∧ (AccessToken.encode [116, 101, 115, 116]).decode
        = some [116, 101, 115, 116] :=
  ⟨by decide, rfl,
    access_token_roundtrip [116, 101, 115, 116] (by decide) rfl⟩
